import Mathlib

/-!
Verification of the moc-rest dispatch core (src/moc/rest.py) against its
specification. The Python module is shallowly embedded below: the route
registry built by the decorator `rest_call`, the error taxonomy rooted at
`APIError`, and the dispatcher `request_handler`. The URL matcher and the
HTTP request/response primitives come from werkzeug, an external
collaborator whose sources are not part of this repository; those pieces
are modelled from the specification's description of the collaborator
interface (single-segment placeholder matching, 404/405 classification,
body stream with declared content length).
-/

set_option autoImplicit false

namespace Moc

/-- One component of a werkzeug-style path pattern: either a literal
segment or a named single-segment placeholder (written `<name>` in the
source, e.g. `'/func/<foo>/<bar>'`). -/
inductive Segment where
  | lit (s : String)
  | var (name : String)
deriving DecidableEq

/-- The error taxonomy defined in src/moc/rest.py: the base class
`APIError` and its subclass `ValidationError`. -/
inductive APIErrorClass where
  | apiError
  | validationError
deriving DecidableEq

/-- `self.__class__.__name__` for each class of the taxonomy. -/
def className : APIErrorClass → String
  | .apiError => "APIError"
  | .validationError => "ValidationError"

/-- The `status_code` class attribute explicitly set by a class, if any.
`APIError` itself fixes the default `400`; `ValidationError` sets nothing
and inherits. -/
def statusOverride : APIErrorClass → Option Nat
  | .apiError => none
  | .validationError => none

/-- The effective `status_code` attribute of an error class: the
override when one is set, otherwise the default `400` from `APIError`. -/
def status_code (c : APIErrorClass) : Nat := (statusOverride c).getD 400

/-- The observable result of calling a registered handler function
`f(**values)`: a normal return (a string, or Python `None`), a raised
`APIError` carrying its class and message, a raised werkzeug
`HTTPException` carrying its HTTP status, or any other raised
exception. -/
inductive HandlerResult where
  | ok (body : Option String)
  | apiError (cls : APIErrorClass) (msg : String)
  | httpExc (status : Nat)
  | other

/-- A handler function. It receives the keyword-argument dictionary that
`request_handler` builds (path variables plus `request_body`), modelled
as an association list in insertion order. -/
abbrev Handler := List (String × String) → HandlerResult

/-- A werkzeug `Rule` as built by `rest_call`:
`Rule(path, endpoint=f, methods=[method])`. -/
structure Rule where
  methods : List String
  pattern : List Segment
  endpoint : Handler

/-- The module-level `_url_map`, as the list of rules added to it, in
registration order. -/
abbrev UrlMap := List Rule

/-- The registration error the specification says a duplicate
registration produces. No class of this name exists in the source. -/
inductive RegError where
  | duplicateRoute
deriving DecidableEq

/-- The inner `register` function of the decorator `rest_call`: it calls
`_url_map.add(Rule(path, endpoint=f, methods=[method]))`. Werkzeug's
`Map.add` binds the rule and appends it to the map unconditionally; it
performs no duplicate check, so registration never fails. The `Except`
codomain exists so that the specification's claimed failure mode is
expressible; the code always returns `Except.ok`. -/
def register (method : String) (pattern : List Segment) (f : Handler)
    (m : UrlMap) : Except RegError UrlMap :=
  Except.ok (m ++ [⟨[method], pattern, f⟩])

/-- Modelled from the spec: the collaborator's single-segment pattern
match of one rule's pattern against the URL's segments. Literal segments
must be equal; a placeholder captures the corresponding segment under its
name. Bindings are returned in pattern order. -/
def matchSegs : List Segment → List String → Option (List (String × String))
  | [], [] => some []
  | .lit s :: ps, t :: ts => if s = t then matchSegs ps ts else none
  | .var n :: ps, t :: ts => (matchSegs ps ts).map (fun vs => (n, t) :: vs)
  | _, _ => none

/-- Outcome of the collaborator's `adapter.match()`: a handler with its
extracted path variables, or the negative classification that
`request_handler` turns into the standard 404/405 response. -/
inductive MatchResult where
  | found (f : Handler) (values : List (String × String))
  | notFound
  | methodNotAllowed

/-- Modelled from the spec: the matcher's scan over the registered rules.
A rule whose pattern matches the path and whose method list contains the
request method is returned. A rule whose pattern matches but whose method
does not sets a flag and the scan continues; when the scan ends, the flag
decides between method-mismatch (405) and no-match (404), so no-match is
reported only when no pattern matched at all. -/
def resolveGo : List Rule → String → List String → Bool → MatchResult
  | [], _, _, pathMatched =>
    if pathMatched then .methodNotAllowed else .notFound
  | r :: rs, method, path, pathMatched =>
    match matchSegs r.pattern path with
    | none => resolveGo rs method path pathMatched
    | some values =>
      if method ∈ r.methods then .found r.endpoint values
      else resolveGo rs method path true

/-- Modelled from the spec: `adapter.match()` for a request, scanning the
registered rules with the no-match flag initially clear. -/
def resolve (m : UrlMap) (method : String) (path : List String) :
    MatchResult :=
  resolveGo m method path false

/-- Split a URL path into its segments, dropping empty components
(leading slash). `/func/alice/bob` becomes `["func", "alice", "bob"]`. -/
def splitAux : List Char → List Char → List String
  | [], acc => if acc.isEmpty then [] else [String.mk acc.reverse]
  | c :: cs, acc =>
    if c = '/' then
      if acc.isEmpty then splitAux cs []
      else String.mk acc.reverse :: splitAux cs []
    else splitAux cs (c :: acc)

/-- Segments of a URL path string. -/
def splitPath (p : String) : List String := splitAux p.data []

/-- Python dictionary assignment `d[k] = v` on an association list kept
in insertion order: an existing binding of `k` is overwritten in place,
otherwise the new binding is appended. -/
def dictSet (d : List (String × String)) (k v : String) :
    List (String × String) :=
  if d.any (fun p => p.1 = k) then
    d.map (fun p => if p.1 = k then (k, v) else p)
  else d ++ [(k, v)]

/-- An inbound request as `request_handler` consumes it: method, URL
path, the declared content length (`None` when the client sent no
Content-Length header), and the body stream `environ['wsgi.input']`. -/
structure Request where
  method : String
  path : String
  contentLength : Option Nat
  bodyStream : List Char

/-- `stream.read(n)`: up to `n` bytes from the front of the stream,
together with the number of bytes actually consumed. -/
def streamRead (n : Nat) (s : List Char) : String × Nat :=
  (String.mk (s.take n), (s.take n).length)

/-- A response body: either text produced by this module, or the
collaborator's standard error document for the given status (the body a
werkzeug `HTTPException` renders for itself). -/
inductive RespBody where
  | text (s : String)
  | standardHttp (status : Nat)
deriving DecidableEq

/-- What `request_handler` does with a request: return a `Response` with
a status and body, or let an exception propagate to its caller. -/
inductive Outcome where
  | response (status : Nat) (body : RespBody)
  | raised
deriving DecidableEq

/-- JSON string escaping for the characters exercised here, as
`json.dumps` renders them. -/
def jsonEscapeChar (c : Char) : String :=
  if c = '\\' then "\\\\"
  else if c = '"' then "\\\""
  else if c = '\n' then "\\n"
  else if c = '\t' then "\\t"
  else if c = '\r' then "\\r"
  else String.singleton c

/-- A JSON string literal. -/
def jsonString (s : String) : String :=
  "\"" ++ String.join (s.data.map jsonEscapeChar) ++ "\""

/-- The body built by `APIError.response`: `json.dumps` of the
two-entry dictionary binding the key `type` to the class name and the
key `msg` to the message, with `json.dumps`'s default separators. -/
def jsonTypeMsg (tyName msg : String) : String :=
  "\x7b\"type\": " ++ jsonString tyName ++ ", \"msg\": " ++ jsonString msg
    ++ "\x7d"

/-- Lines 125-138 of src/moc/rest.py: what becomes of the handler call
`response_body = f(**values)`. A falsy return (`None` or the empty
string) is replaced by the empty string and wrapped in a 200 response;
any other string becomes the 200 response body verbatim. A raised
`APIError` is converted by `e.response()` into a response with the
error's `status_code` and the JSON body from `jsonTypeMsg`. A raised
`HTTPException` is returned as the response it renders for itself. Any
other exception is not caught and propagates. -/
def handlerOutcome : HandlerResult → Outcome
  | .ok none => .response 200 (.text "")
  | .ok (some s) => .response 200 (.text (if s = "" then "" else s))
  | .apiError cls msg =>
    .response (status_code cls) (.text (jsonTypeMsg (className cls) msg))
  | .httpExc n => .response n (.standardHttp n)
  | .other => .raised

/-- `request_handler` (src/moc/rest.py lines 106-138). Resolve the
request against the url map; on `NotFound` or `MethodNotAllowed` the
raised `HTTPException` is caught and returned as the standard 404/405
response. On a match, read the request body: the empty string without
touching the stream when no content length was declared, otherwise
`wsgi.input.read(content_length)`. Store it under `request_body` in the
extracted values and call the handler with the resulting keyword
arguments. The second component counts the bytes read from the body
stream during the call. -/
def request_handler (m : UrlMap) (req : Request) : Outcome × Nat :=
  match resolve m req.method (splitPath req.path) with
  | .notFound => (.response 404 (.standardHttp 404), 0)
  | .methodNotAllowed => (.response 405 (.standardHttp 405), 0)
  | .found f values =>
    match req.contentLength with
    | none => (handlerOutcome (f (dictSet values "request_body" "")), 0)
    | some n =>
      let r := streamRead n req.bodyStream
      (handlerOutcome (f (dictSet values "request_body" r.1)), r.2)

/-! Concrete scenario material used by the theorems below: routes and
handlers mirroring the ones registered in src/tests/rest.py. -/

/-- Projection of a registration result: did it succeed? -/
def regOk : Except RegError UrlMap → Bool
  | .ok _ => true
  | .error _ => false

/-- Projection of a registration result: the resulting url map (the
empty map on failure). -/
def regMap : Except RegError UrlMap → UrlMap
  | .ok m => m
  | .error _ => []

/-- The route of `TestEquiv_basic_APIError`: GET `/some_error` with the
given endpoint. -/
def demoRule (f : Handler) : Rule := ⟨["GET"], [.lit "some_error"], f⟩

/-- A GET request for `/some_error` with no declared content length and
an empty body stream. -/
def demoReq : Request := ⟨"GET", "/some_error", none, []⟩

/-- A handler that returns `None`. -/
def hNull : Handler := fun _ => HandlerResult.ok none

/-- A handler that returns its `request_body` keyword argument. -/
def hEcho : Handler :=
  fun kw => HandlerResult.ok (some ((kw.lookup "request_body").getD ""))

/-- A handler that raises werkzeug's `InternalServerError`, an
`HTTPException` with code 500 (imported at line 26 of the source); it is
not an `APIError`. -/
def hHttpExc : Handler := fun _ => HandlerResult.httpExc 500

/-- A handler that raises an exception that is neither an `APIError` nor
an `HTTPException`. -/
def hOther : Handler := fun _ => HandlerResult.other

/-- A handler that returns the non-empty string `hi`. -/
def hHi : Handler := fun _ => HandlerResult.ok (some "hi")

/-- A handler that raises `ValidationError("bad body")`. -/
def hVal : Handler :=
  fun _ => HandlerResult.apiError .validationError "bad body"

/-- The route of `TestUrlArgs`: GET `/func/<foo>/<bar>`. -/
def c9Rule (f : Handler) : Rule :=
  ⟨["GET"], [.lit "func", .var "foo", .var "bar"], f⟩

/-- The request of `TestUrlArgs`: GET `/func/alice/bob` with no body. -/
def c9Req : Request := ⟨"GET", "/func/alice/bob", none, []⟩

/-- A route whose pattern binds a placeholder named `request_body`:
GET `/func/<request_body>`. -/
def c10Rule (f : Handler) : Rule :=
  ⟨["GET"], [.lit "func", .var "request_body"], f⟩

/-- A request matching `c10Rule` with URL segment `captured` in the
placeholder position and the four-byte body `BODY`. -/
def c10Req : Request := ⟨"GET", "/func/captured", some 4, "BODY".data⟩

/-- The raw JSON body of the `TestBodyArgs` request. -/
def c8Body : String := "\x7b\"bar\":\"bonnie\",\"baz\":\"clyde\"\x7d"

/-- The route of `TestBodyArgs`: POST `/func/foo`. -/
def c8Rule (f : Handler) : Rule := ⟨["POST"], [.lit "func", .lit "foo"], f⟩

/-- The request of `TestBodyArgs`: POST `/func/foo` carrying `c8Body`,
with the content length the test's `EnvironBuilder` declares (the body's
byte length). -/
def c8Req : Request := ⟨"POST", "/func/foo", some c8Body.length, c8Body.data⟩

/-- The handler of `TestBodyArgs`, specialised to the body the test
sends: on exactly the raw body `c8Body` it returns the JSON rendering of
the list holding the values of `bar` and `baz`; any other input is a
parse failure, a non-reportable exception. -/
def hBody : Handler :=
  fun kw =>
    if kw.lookup "request_body" = some c8Body then
      HandlerResult.ok (some "[\"bonnie\", \"clyde\"]")
    else HandlerResult.other

/-! Theorems. -/

/-- Scan lemma for the matcher: when every rule whose pattern matches
the path lacks the request method, the scan returns `methodNotAllowed`
exactly when some pattern matched (either recorded in the incoming flag
or found in the list), and `notFound` otherwise. -/
theorem resolveGo_no_method_match (method : String) (path : List String) :
    ∀ (rs : List Rule) (b : Bool),
      (rs.all fun r => (matchSegs r.pattern path).isNone
        || !(decide (method ∈ r.methods))) = true →
      resolveGo rs method path b
        = if b || rs.any (fun r => (matchSegs r.pattern path).isSome)
          then MatchResult.methodNotAllowed else MatchResult.notFound
  | [], b, _ => by simp [resolveGo]
  | r :: rs, b, h => by
    simp only [List.all_cons, Bool.and_eq_true] at h
    obtain ⟨h1, h2⟩ := h
    cases hm : matchSegs r.pattern path with
    | none =>
      rw [show resolveGo (r :: rs) method path b
            = resolveGo rs method path b from by simp [resolveGo, hm]]
      rw [resolveGo_no_method_match method path rs b h2]
      simp [List.any_cons, hm]
    | some values =>
      have hmem : ¬ method ∈ r.methods := by
        rw [hm] at h1
        simpa using h1
      rw [show resolveGo (r :: rs) method path b
            = resolveGo rs method path true from by simp [resolveGo, hm, hmem]]
      rw [resolveGo_no_method_match method path rs true h2]
      simp [List.any_cons, hm]

/-- C1 counterexample: registering a second handler on the same
(method, path pattern) does not fail. After GET `/dup` is bound to
`hNull`, registering `hEcho` on GET `/dup` again returns successfully
(werkzeug's `Map.add` performs no duplicate check and no
`DuplicateRouteError` class exists in the source), and the registry has
grown to two rules rather than being left unchanged. -/
theorem c1_counterexample :
    regOk (register "GET" [Segment.lit "dup"] hEcho
        (regMap (register "GET" [Segment.lit "dup"] hNull []))) = true
      ∧ (regMap (register "GET" [Segment.lit "dup"] hEcho
          (regMap (register "GET" [Segment.lit "dup"] hNull [])))).length
        = 2 :=
  ⟨rfl, rfl⟩

/-- C1 amended: a second registration on the same (method, path pattern)
succeeds without error and appends a second rule to the registry, and a
path matching the duplicated pattern subsequently resolves to the
first-registered handler. -/
theorem c1_register_duplicate (method : String) (pattern : List Segment)
    (f g : Handler) :
    regOk (register method pattern g
        (regMap (register method pattern f []))) = true
    ∧ regMap (register method pattern g
          (regMap (register method pattern f [])))
        = [⟨[method], pattern, f⟩, ⟨[method], pattern, g⟩]
    ∧ ∀ (path : List String) (vals : List (String × String)),
        matchSegs pattern path = some vals →
        resolve (regMap (register method pattern g
            (regMap (register method pattern f [])))) method path
          = MatchResult.found f vals := by
  refine ⟨rfl, rfl, ?_⟩
  intro path vals h
  simp [register, regMap, resolve, resolveGo, h]

/-- Witness for the amended C1 at GET `/dup`, registered twice, resolved
at the path `/dup`. -/
theorem c1_witness :
    resolve (regMap (register "GET" [Segment.lit "dup"] hEcho
        (regMap (register "GET" [Segment.lit "dup"] hNull []))))
        "GET" ["dup"]
      = MatchResult.found hNull [] :=
  (c1_register_duplicate "GET" [Segment.lit "dup"] hNull hEcho).2.2
    ["dup"] [] rfl

/-- C2 counterexample: a handler that raises werkzeug's
`InternalServerError` — an `HTTPException`, not an `APIError` — is
caught by the dispatcher's second except clause, which returns the
exception as the response instead of re-raising it. -/
theorem c2_counterexample :
    (request_handler [demoRule hHttpExc] demoReq).1
        = Outcome.response 500 (RespBody.standardHttp 500)
      ∧ (request_handler [demoRule hHttpExc] demoReq).1 ≠ Outcome.raised :=
  ⟨rfl, by decide⟩

/-- C2 amended: if the handler raises an exception that is neither an
`APIError` nor a werkzeug `HTTPException`, `request_handler` does not
catch it and re-raises it to its caller instead of returning a response;
an `HTTPException` raised by the handler, however, is caught and
returned as the response. -/
theorem c2_nonreportable_propagates (m : UrlMap) (req : Request)
    (f : Handler) (values : List (String × String))
    (hres : resolve m req.method (splitPath req.path)
      = MatchResult.found f values)
    (hf : ∀ kw, f kw = HandlerResult.other) :
    (request_handler m req).1 = Outcome.raised := by
  simp only [request_handler, hres]
  cases req.contentLength <;> simp [hf, handlerOutcome]

/-- Witness for the amended C2: a handler raising a non-reportable,
non-HTTP exception on GET `/some_error` propagates. -/
theorem c2_witness :
    (request_handler [demoRule hOther] demoReq).1 = Outcome.raised :=
  c2_nonreportable_propagates [demoRule hOther] demoReq hOther [] rfl
    (fun _ => rfl)

/-- C3: a handler that raises a reportable error whose class does not
override `status_code` yields a 400 response whose body is the JSON
object binding `type` to the exception's class name and `msg` to its
message. -/
theorem c3_apierror_response (f : Handler) (cls : APIErrorClass)
    (msg : String)
    (hov : statusOverride cls = none)
    (hf : f [("request_body", "")] = HandlerResult.apiError cls msg) :
    (request_handler [demoRule f] demoReq).1
      = Outcome.response 400
          (RespBody.text (jsonTypeMsg (className cls) msg)) := by
  have h1 : (request_handler [demoRule f] demoReq).1
      = handlerOutcome (f [("request_body", "")]) := rfl
  rw [h1, hf]
  simp [handlerOutcome, status_code, hov]

/-- Witness for C3: `ValidationError("bad body")` raised on GET
`/some_error`. -/
theorem c3_witness :
    (request_handler [demoRule hVal] demoReq).1
      = Outcome.response 400
          (RespBody.text (jsonTypeMsg "ValidationError" "bad body")) :=
  c3_apierror_response hVal .validationError "bad body" rfl rfl

/-- C4: routing errors. If no registered pattern matches the request
path, `request_handler` returns the standard 404 response; if some
pattern matches the path but every such rule lacks the request method,
it returns the standard 405 response. In both cases no handler is
invoked — the result does not depend on any rule's endpoint, which the
statement's quantification over arbitrary url maps reflects — and no
bytes are read from the body stream. No-match takes precedence: 405
requires that some pattern matched. -/
theorem c4_routing_errors (m : UrlMap) (req : Request) :
    ((m.all fun r =>
        (matchSegs r.pattern (splitPath req.path)).isNone) = true →
      request_handler m req
        = (Outcome.response 404 (RespBody.standardHttp 404), 0))
    ∧ ((m.any fun r =>
          (matchSegs r.pattern (splitPath req.path)).isSome) = true →
       (m.all fun r =>
          (matchSegs r.pattern (splitPath req.path)).isNone
            || !(decide (req.method ∈ r.methods))) = true →
      request_handler m req
        = (Outcome.response 405 (RespBody.standardHttp 405), 0)) := by
  constructor
  · intro hall
    have hb : (m.all fun r =>
        (matchSegs r.pattern (splitPath req.path)).isNone
          || !(decide (req.method ∈ r.methods))) = true := by
      rw [List.all_eq_true] at hall ⊢
      intro r hr
      simp [hall r hr]
    have hany : (m.any fun r =>
        (matchSegs r.pattern (splitPath req.path)).isSome) = false := by
      by_contra hc
      rw [Bool.not_eq_false, List.any_eq_true] at hc
      obtain ⟨r, hr, hs⟩ := hc
      rw [List.all_eq_true] at hall
      have hn := hall r hr
      rw [Option.isNone_iff_eq_none] at hn
      rw [hn] at hs
      simp at hs
    have hres := resolveGo_no_method_match req.method (splitPath req.path)
      m false hb
    have h404 : resolve m req.method (splitPath req.path)
        = MatchResult.notFound := by
      rw [resolve, hres, hany]
      simp
    simp [request_handler, h404]
  · intro hany hall
    have hres := resolveGo_no_method_match req.method (splitPath req.path)
      m false hall
    have h405 : resolve m req.method (splitPath req.path)
        = MatchResult.methodNotAllowed := by
      rw [resolve, hres, hany]
      simp
    simp [request_handler, h405]

/-- Witness for C4: against a registry holding only GET `/some_error`, a
POST for `/nope` (neither path nor method registered — precedence gives
404) yields the standard 404, and a POST for `/some_error` (path
registered, method not) yields the standard 405. -/
theorem c4_witness :
    request_handler [demoRule hNull] ⟨"POST", "/nope", none, []⟩
        = (Outcome.response 404 (RespBody.standardHttp 404), 0)
      ∧ request_handler [demoRule hNull] ⟨"POST", "/some_error", none, []⟩
        = (Outcome.response 405 (RespBody.standardHttp 405), 0) :=
  ⟨(c4_routing_errors [demoRule hNull] ⟨"POST", "/nope", none, []⟩).1
      (by rfl),
   (c4_routing_errors [demoRule hNull] ⟨"POST", "/some_error", none, []⟩).2
      (by rfl) (by rfl)⟩

/-- C5: for every dispatched request the number of bytes read from the
body stream is bounded by the declared content length (zero when none is
declared); and when the request declares no content length, or declares
zero, the handler's `request_body` argument is the empty string and no
bytes are read from the stream. -/
theorem c5_body_read (m : UrlMap) (req : Request) (f : Handler)
    (cl : Option Nat) (stream : List Char)
    (hcl : cl = none ∨ cl = some 0) :
    (request_handler m req).2 ≤ req.contentLength.getD 0
    ∧ (request_handler [demoRule f] ⟨"GET", "/some_error", cl, stream⟩).1
        = handlerOutcome (f [("request_body", "")])
    ∧ (request_handler [demoRule f] ⟨"GET", "/some_error", cl, stream⟩).2
        = 0 := by
  refine ⟨?_, ?_, ?_⟩
  · unfold request_handler
    cases hr : resolve m req.method (splitPath req.path) with
    | notFound => simp
    | methodNotAllowed => simp
    | found g values =>
      cases hcl2 : req.contentLength with
      | none => simp
      | some n =>
        simp only [hcl2, Option.getD_some, streamRead]
        simp [List.length_take]
  · rcases hcl with rfl | rfl <;> rfl
  · rcases hcl with rfl | rfl <;> rfl

/-- Witness for C5: a request with content length 2 reads at most 2
bytes, and a request with no content length delivers the empty body
without reading the nonempty stream. -/
theorem c5_witness :
    (request_handler [demoRule hNull]
        ⟨"GET", "/some_error", some 2, ['a', 'b', 'c']⟩).2 ≤ 2
    ∧ (request_handler [demoRule hNull]
          ⟨"GET", "/some_error", none, ['x']⟩).1
        = handlerOutcome (hNull [("request_body", "")])
    ∧ (request_handler [demoRule hNull]
          ⟨"GET", "/some_error", none, ['x']⟩).2 = 0 :=
  c5_body_read [demoRule hNull] ⟨"GET", "/some_error", some 2, ['a', 'b', 'c']⟩
    hNull none ['x'] (Or.inl rfl)

/-- C6: when the handler returns normally, `request_handler` produces a
200 response; a falsy return (Python `None` or the empty string) gives
an empty body, and any other return gives exactly the returned string as
body — which is what `Option.getD` of the returned value at the empty
string computes. -/
theorem c6_normal_return (f : Handler) (b : Option String)
    (hf : f [("request_body", "")] = HandlerResult.ok b) :
    (request_handler [demoRule f] demoReq).1
      = Outcome.response 200 (RespBody.text (b.getD "")) := by
  have h1 : (request_handler [demoRule f] demoReq).1
      = handlerOutcome (f [("request_body", "")]) := rfl
  rw [h1, hf]
  cases b with
  | none => rfl
  | some s =>
    simp only [handlerOutcome, Option.getD_some]
    by_cases hs : s = "" <;> simp [hs]

/-- Witness for C6: a handler returning the non-empty string `hi` yields
a 200 response with body `hi`. -/
theorem c6_witness :
    (request_handler [demoRule hHi] demoReq).1
      = Outcome.response 200 (RespBody.text "hi") :=
  c6_normal_return hHi (some "hi") rfl

/-- C7: a reportable error raised by the handler produces a response
carrying the error class's `status_code`, and for every class of the
taxonomy that status is below 500 — reportable errors never cause a
5xx. -/
theorem c7_no_5xx (f : Handler) (cls : APIErrorClass) (msg : String)
    (hf : f [("request_body", "")] = HandlerResult.apiError cls msg) :
    (request_handler [demoRule f] demoReq).1
      = Outcome.response (status_code cls)
          (RespBody.text (jsonTypeMsg (className cls) msg))
    ∧ status_code cls < 500 := by
  constructor
  · have h1 : (request_handler [demoRule f] demoReq).1
        = handlerOutcome (f [("request_body", "")]) := rfl
    rw [h1, hf]
    rfl
  · cases cls <;> decide

/-- Witness for C7: `ValidationError` yields status 400, not a 5xx. -/
theorem c7_witness :
    (request_handler [demoRule hVal] demoReq).1
      = Outcome.response (status_code .validationError)
          (RespBody.text
            (jsonTypeMsg (className .validationError) "bad body"))
    ∧ status_code .validationError < 500 :=
  c7_no_5xx hVal .validationError "bad body" rfl

/-- C8: direct-call/HTTP-call equivalence on the `TestBodyArgs` request.
Dispatching the POST to `/func/foo` whose declared content length covers
its JSON body hands the handler exactly the raw body string `c8Body` as
its `request_body` keyword argument, and when the handler returns a
non-empty string the dispatch response is a 200 whose body is that
string byte-for-byte — the same string a direct call on the same body
returns, so both parse to the same JSON structure. -/
theorem c8_http_equivalence (f : Handler) (s : String)
    (hf : f [("request_body", c8Body)] = HandlerResult.ok (some s))
    (hs : s ≠ "") :
    (request_handler [c8Rule f] c8Req).1
        = handlerOutcome (f [("request_body", c8Body)])
      ∧ (request_handler [c8Rule f] c8Req).1
        = Outcome.response 200 (RespBody.text s) := by
  refine ⟨rfl, ?_⟩
  have h1 : (request_handler [c8Rule f] c8Req).1
      = handlerOutcome (f [("request_body", c8Body)]) := rfl
  rw [h1, hf]
  simp [handlerOutcome, hs]

/-- Witness for C8: the `TestBodyArgs` handler, which on the raw body
answers with the JSON list of the values of `bar` and `baz`. -/
theorem c8_witness :
    (request_handler [c8Rule hBody] c8Req).1
        = handlerOutcome (hBody [("request_body", c8Body)])
      ∧ (request_handler [c8Rule hBody] c8Req).1
        = Outcome.response 200 (RespBody.text "[\"bonnie\", \"clyde\"]") :=
  c8_http_equivalence hBody "[\"bonnie\", \"clyde\"]" rfl (by decide)

/-- C9: a single registered route whose pattern match succeeds resolves
to that route's handler together with the extracted bindings; in
particular GET `/func/alice/bob` against the `TestUrlArgs` route
GET `/func/<foo>/<bar>` binds `foo` to `alice` and `bar` to `bob`, and
the handler is invoked with exactly those keyword arguments plus the
(empty) `request_body`. -/
theorem c9_url_args :
    (∀ (f : Handler) (method : String) (pattern : List Segment)
        (path : List String) (vals : List (String × String)),
      matchSegs pattern path = some vals →
      resolve [⟨[method], pattern, f⟩] method path
        = MatchResult.found f vals)
    ∧ ∀ f : Handler,
        resolve [c9Rule f] "GET" (splitPath "/func/alice/bob")
            = MatchResult.found f [("foo", "alice"), ("bar", "bob")]
          ∧ (request_handler [c9Rule f] c9Req).1
            = handlerOutcome
                (f [("foo", "alice"), ("bar", "bob"),
                    ("request_body", "")]) := by
  constructor
  · intro f method pattern path vals h
    simp [resolve, resolveGo, h]
  · intro f
    exact ⟨rfl, rfl⟩

/-- Witness for C9's general conjunct at a one-placeholder route. -/
theorem c9_witness :
    resolve [⟨["GET"], [Segment.var "x"], hNull⟩] "GET" ["v"]
      = MatchResult.found hNull [("x", "v")] :=
  c9_url_args.1 hNull "GET" [Segment.var "x"] ["v"] [("x", "v")] rfl

/-- C10: a route whose pattern binds a placeholder named `request_body`
matches and captures the URL segment under that name, but the
dispatcher's unconditional dictionary assignment overwrites the captured
value with the request body before the handler is called, so the handler
always receives the body (here the four bytes `BODY`), never the path
segment, and no error is raised about the collision. -/
theorem c10_request_body_shadowing (f : Handler) (seg : String) :
    resolve [c10Rule f] "GET" ["func", seg]
        = MatchResult.found f [("request_body", seg)]
      ∧ dictSet [("request_body", seg)] "request_body" "BODY"
        = [("request_body", "BODY")]
      ∧ (request_handler [c10Rule f] c10Req).1
        = handlerOutcome (f [("request_body", "BODY")]) :=
  ⟨rfl, rfl, rfl⟩

end Moc
